import Mathlib

/-!
Verification development for the mentat FFI boundary layer
(`src/ffi/src/lib.rs`).

Modelling conventions, used uniformly below:

* A raw pointer crossing the boundary is `Option v`: `none` is the null
  pointer, and `some v` is a non-null pointer to a freshly heap-allocated
  value `v` (the result of `Box::into_raw(Box::new(v))` in the source).
* A C string (`*const c_char`) holding text is a `List Char` that carries
  its terminating NUL character explicitly.
* A Rust function that can panic (`expect`, `panic!`) is embedded as a
  function into `Except String …`, where `.error msg` is abrupt
  termination with the panic message and `.ok` is a normal return.
* A Rust function taking `&mut` or `&` state returns the (possibly
  updated) state as an extra component, so borrowing and non-consumption
  are visible in the embedding.
* Engine operations (the mentat crate itself is an external collaborator,
  out of scope per the specification) are passed in as explicit function
  arguments, so every theorem quantifies over all Engine behaviours.
* `f64` values are carried as their raw bit pattern (`Nat`): this layer
  only moves doubles across the boundary, it never computes with them.
-/

/-- The entity-id type: a 64-bit signed integer in the source
(`pub use mentat::Entid`). -/
abbrev Entid := Int

/-- Modelled from the spec: the namespaced keyword of the Engine
(`mentat::NamespacedKeyword`, out of scope), carried as its text. -/
structure Keyword where
  name : String
deriving DecidableEq

/-- Modelled from the spec: `utils::strings::c_char_to_string` (repository
code not under `src/`) decodes a null-terminated foreign string into the
native string type; in this embedding foreign text is already carried as
`String`, so the decoding is content-preserving. -/
def c_char_to_string (s : String) : String := s

/-- Modelled from the spec: `utils::strings::string_to_c_char` (repository
code not under `src/`) builds an owned, null-terminated C string from a
native string. -/
def string_to_c_char (s : String) : List Char :=
  s.data ++ [Char.ofNat 0]

/-- Modelled from the spec: `utils::strings::c_char_from_rc` (repository
code not under `src/`) builds an owned, null-terminated C string from the
Engine's shared string. -/
def c_char_from_rc (s : String) : List Char :=
  s.data ++ [Char.ofNat 0]

/-- Modelled from the spec: `utils::strings::kw_from_string` (repository
code not under `src/`) converts foreign text into the Engine's namespaced
keyword, content-preserving. -/
def kw_from_string (s : String) : Keyword := ⟨s⟩

/-- Modelled from the spec: the Rust Debug rendering of a keyword used by
`format!` is its text. -/
def Keyword.debug_string (kw : Keyword) : String := kw.name

/-- Modelled from the spec: rendering a keyword back to text
(`NamespacedKeyword::to_string`, out of scope). -/
def Keyword.to_string (kw : Keyword) : String := kw.name

/-- Hexadecimal digit character for a value below 16 (lower case, as in
the canonical UUID form). -/
def hexDigitChar (n : Nat) : Char :=
  if n < 10 then Char.ofNat (48 + n) else Char.ofNat (87 + n)

/-- Big-endian fixed-width hexadecimal rendering of a natural number. -/
def natToHex : Nat → Nat → List Char
  | 0, _ => []
  | w + 1, n => natToHex w (n / 16) ++ [hexDigitChar (n % 16)]

/-- Modelled from the spec: the canonical 8-4-4-4-12 hyphenated hexadecimal
string form of a 128-bit UUID (the external uuid crate, out of scope). -/
def uuid_to_canonical_string (u : Nat) : String :=
  let d := natToHex 32 u
  String.mk (d.take 8 ++ ['-'] ++ (d.drop 8).take 4 ++ ['-'] ++
    (d.drop 12).take 4 ++ ['-'] ++ (d.drop 16).take 4 ++ ['-'] ++ d.drop 20)

/-- Numeric value of one hexadecimal digit character, if it is one. -/
def hexVal (c : Char) : Option Nat :=
  if '0' ≤ c ∧ c ≤ '9' then some (c.toNat - 48)
  else if 'a' ≤ c ∧ c ≤ 'f' then some (c.toNat - 87)
  else if 'A' ≤ c ∧ c ≤ 'F' then some (c.toNat - 55)
  else none

/-- Worker for `Uuid_parse_str`: consumes the characters while tracking the
position; positions 8, 13, 18 and 23 must hold hyphens, every other
position a hexadecimal digit, and exactly 36 characters must be present. -/
def parseUuidChars : List Char → Nat → Nat → Option Nat
  | [], pos, acc => if pos = 36 then some acc else none
  | c :: rest, pos, acc =>
    if pos = 8 ∨ pos = 13 ∨ pos = 18 ∨ pos = 23 then
      if c = '-' then parseUuidChars rest (pos + 1) acc else none
    else
      match hexVal c with
      | some d => parseUuidChars rest (pos + 1) (acc * 16 + d)
      | none => none

/-- Modelled from the spec: `Uuid::parse_str` of the external uuid crate,
restricted to the canonical hyphenated form named by the specification;
returns `none` on malformed input (the crate returns an error, which the
boundary layer turns into a panic via `expect`). -/
def Uuid_parse_str (s : String) : Option Nat :=
  parseUuidChars s.data 0 0

/-- The tagged scalar produced by the Engine (`mentat::TypedValue`, out of
scope; variants as enumerated by the specification, section 3). The `f64`
payload of `double` is carried as its raw bit pattern. -/
inductive TypedValue where
  | long (v : Int)
  | ref (e : Entid)
  | keyword (kw : Keyword)
  | boolean (b : Bool)
  | double (bits : Nat)
  | instant (epoch : Int)
  | text (s : String)
  | uuid (u : Nat)
deriving DecidableEq

/-- Modelled from the spec: extraction as a long either returns the value
or fails; Integer and EntityRef are the two always-legal mutual coercions,
every other cross-tag coercion fails (specification, section 3). -/
def TypedValue.into_long : TypedValue → Option Int
  | .long v => some v
  | .ref e => some e
  | _ => none

/-- Modelled from the spec: extraction as an entity id; Integer and
EntityRef coerce to each other, other tags fail. -/
def TypedValue.into_entid : TypedValue → Option Entid
  | .ref e => some e
  | .long v => some v
  | _ => none

/-- Modelled from the spec: extraction as a keyword; fails on any other
tag. -/
def TypedValue.into_kw : TypedValue → Option Keyword
  | .keyword kw => some kw
  | _ => none

/-- Modelled from the spec: extraction as a boolean; fails on any other
tag. -/
def TypedValue.into_boolean : TypedValue → Option Bool
  | .boolean b => some b
  | _ => none

/-- Modelled from the spec: extraction as a double (raw bit pattern); fails
on any other tag. -/
def TypedValue.into_double : TypedValue → Option Nat
  | .double bits => some bits
  | _ => none

/-- Modelled from the spec: extraction as an epoch timestamp; fails on any
other tag. -/
def TypedValue.into_timestamp : TypedValue → Option Int
  | .instant t => some t
  | _ => none

/-- Modelled from the spec: extraction as an owned string; fails on any
other tag. -/
def TypedValue.into_string : TypedValue → Option String
  | .text s => some s
  | _ => none

/-- Modelled from the spec: extraction of a UUID in canonical string form;
fails on any other tag. -/
def TypedValue.into_uuid_string : TypedValue → Option String
  | .uuid u => some (uuid_to_canonical_string u)
  | _ => none

/-- An Engine error; only its description string crosses the boundary
(`std::error::Error::description`). -/
structure EngineError where
  description : String
deriving DecidableEq

/-- The `ExternResult` struct of `lib.rs` (lines 102-107): a success slot
`ok` and an error slot `err`, each a possibly-null pointer. `some v` in
`ok` models a non-null pointer to a freshly boxed `v`; `some cs` in `err`
models a non-null owned C string. -/
structure ExternResult (α : Type) where
  ok : Option α
  err : Option (List Char)
deriving DecidableEq

/-- The `impl From<Result<T, E>> for ExternResult` of `lib.rs` (lines
109-126): `Ok(value)` boxes the payload into the `ok` slot with a null
`err`; `Err(e)` leaves `ok` null and builds the `err` string from the
error description. -/
def externResult_from_result {α : Type} : Except EngineError α → ExternResult α
  | .ok value => { err := none, ok := some value }
  | .error e => { err := some (string_to_c_char e.description), ok := none }

/-- The `TxReport` of the Engine as read by this layer: transaction id,
transaction instant, and the temporary-id → entity-id map (a `BTreeMap`,
embedded as an association list with unique keys looked up by
`tempids_get`). -/
structure TxReport where
  tx_id : Entid
  tx_instant : Int
  tempids : List (String × Entid)
deriving DecidableEq

/-- Lookup in the temporary-id map (`BTreeMap::get`). -/
def tempids_get (m : List (String × Entid)) (key : String) : Option Entid :=
  (m.find? (fun p => decide (p.1 = key))).map (fun p => p.2)

/-- `tx_report_entity_for_temp_id` (`lib.rs` lines 175-184): looks the key
up in the report's temporary-id map; a hit boxes a clone of the entity id
into a non-null pointer, a miss returns the null pointer. The report is
only borrowed, so it is returned unchanged. -/
def tx_report_entity_for_temp_id (tx_report : TxReport) (tempid : String) :
    Option Entid × TxReport :=
  let key := c_char_to_string tempid
  match tempids_get tx_report.tempids key with
  | some entid => (some entid, tx_report)
  | none => (none, tx_report)

/-- `tx_report_get_entid` (`lib.rs` lines 163-167). -/
def tx_report_get_entid (tx_report : TxReport) : Int × TxReport :=
  (tx_report.tx_id, tx_report)

/-- `tx_report_get_tx_instant` (`lib.rs` lines 169-173). -/
def tx_report_get_tx_instant (tx_report : TxReport) : Int × TxReport :=
  (tx_report.tx_instant, tx_report)

/-- The Engine-level result of `store_transact` (`lib.rs` lines 154-159):
begin a transaction, transact the text, commit, and keep the report. The
three Engine operations (out of scope) are explicit arguments; `IP` is the
Engine's in-progress transaction type. -/
def store_transact_result {IP : Type} (begin_transaction : Except EngineError IP)
    (transact : IP → String → Except EngineError TxReport)
    (commit : IP → Except EngineError Unit)
    (transaction : String) : Except EngineError TxReport := do
  let in_progress ← begin_transaction
  let tx_report ← transact in_progress (c_char_to_string transaction)
  let _ ← commit in_progress
  pure tx_report

/-- `store_transact` (`lib.rs` lines 150-161): runs the transaction chain
and boxes the converted `ExternResult`. -/
def store_transact {IP : Type} (begin_transaction : Except EngineError IP)
    (transact : IP → String → Except EngineError TxReport)
    (commit : IP → Except EngineError Unit)
    (transaction : String) : ExternResult TxReport :=
  externResult_from_result
    (store_transact_result begin_transaction transact commit transaction)

/-- Modelled from the spec: the Engine's Query Builder (out of scope) holds
the query text and the variable-name → bound-value map. -/
structure QueryBuilder where
  query : String
  values : List (String × TypedValue)
deriving DecidableEq

/-- Modelled from the spec: `QueryBuilder::bind_value` inserts or replaces
the binding for the variable. -/
def QueryBuilder.bind_value (qb : QueryBuilder) (var : String)
    (value : TypedValue) : QueryBuilder :=
  { qb with values := (var, value) :: qb.values.filter (fun p => decide (p.1 ≠ var)) }

/-- Reading a variable's current binding from the builder's map. -/
def QueryBuilder.lookup_binding (qb : QueryBuilder) (var : String) :
    Option TypedValue :=
  (qb.values.find? (fun p => decide (p.1 = var))).map (fun p => p.2)

/-- `query_builder_bind_uuid` (`lib.rs` lines 262-269): parses the foreign
string as a canonical UUID; a parse failure panics with message
`valid uuid` before the builder is touched, a success binds the parsed
UUID value to the variable. -/
def query_builder_bind_uuid (query_builder : QueryBuilder)
    (var value : String) : Except String QueryBuilder :=
  match Uuid_parse_str (c_char_to_string value) with
  | none => .error "valid uuid"
  | some u =>
    .ok (query_builder.bind_value (c_char_to_string var) (TypedValue.uuid u))

/-- `query_builder_execute_scalar` (`lib.rs` lines 271-281): the Engine's
scalar execution outcome (out of scope) is the explicit argument;
`Ok(Some(v))` boxes the value with a null error, `Ok(None)` leaves both
slots null, `Err(e)` leaves `ok` null and fills the error string. -/
def query_builder_execute_scalar
    (results : Except EngineError (Option TypedValue)) : ExternResult TypedValue :=
  match results with
  | .ok (some v) => { err := none, ok := some v }
  | .ok none => { err := none, ok := none }
  | .error e => { err := some (string_to_c_char e.description), ok := none }

/-- `query_builder_execute_tuple` (`lib.rs` lines 290-303): same three-way
encoding as the scalar case, with a row as payload. -/
def query_builder_execute_tuple
    (results : Except EngineError (Option (List TypedValue))) :
    ExternResult (List TypedValue) :=
  match results with
  | .ok (some v) => { err := none, ok := some v }
  | .ok none => { err := none, ok := none }
  | .error e => { err := some (string_to_c_char e.description), ok := none }

/-- `query_builder_execute_coll` (`lib.rs` lines 283-288): converts the
Engine's collection outcome through the generic `From` rule. -/
def query_builder_execute_coll
    (results : Except EngineError (List TypedValue)) : ExternResult (List TypedValue) :=
  externResult_from_result results

/-- `query_builder_execute` (`lib.rs` lines 305-310): converts the Engine's
relation outcome through the generic `From` rule. -/
def query_builder_execute
    (results : Except EngineError (List (List TypedValue))) :
    ExternResult (List (List TypedValue)) :=
  externResult_from_result results

/-- `store_sync` (`lib.rs` lines 610-617): decodes both strings, calls the
Engine's sync (out of scope, explicit argument, server uri first) and
converts through the generic `From` rule. `σ` is the opaque sync outcome
type. -/
def store_sync {σ : Type} (sync : String → String → Except EngineError σ)
    (user_uuid server_uri : String) : ExternResult σ :=
  externResult_from_result
    (sync (c_char_to_string server_uri) (c_char_to_string user_uuid))

/-- Modelled from the spec: the Engine's schema / attribute registry (out
of scope), an association of attribute keywords to entity ids. -/
structure Schema where
  entids : List (Keyword × Entid)
deriving DecidableEq

/-- Modelled from the spec: `Schema::get_entid` resolves an attribute
keyword to its entity id, if registered. -/
def Schema.get_entid (schema : Schema) (kw : Keyword) : Option Entid :=
  (schema.entids.find? (fun p => decide (p.1 = kw))).map (fun p => p.2)

/-- The Store as seen by this layer: the current schema (reached in the
source through `store.conn().current_schema()`) and the Engine's asserted
datoms, carried so that "the store is unchanged" is expressible. -/
structure Store where
  schema : Schema
  datoms : List (Entid × Keyword × TypedValue)
deriving DecidableEq

/-- The type of the Engine's `Store::assert_datom` (out of scope): given
the store, a known entity id, an attribute keyword and a typed value, it
produces a transaction outcome and the updated store. Every setter below
takes the Engine behaviour as this explicit argument. -/
abbrev AssertDatom :=
  Store → Entid → Keyword → TypedValue → Except EngineError TxReport × Store

/-- The private helper `fn assert_datom` of `lib.rs` (lines 619-625):
decodes the attribute keyword, asserts the datom and boxes the converted
result. -/
def assert_datom_ffi (assert_datom : AssertDatom) (store : Store)
    (entid : Entid) (attr : String) (value : TypedValue) :
    ExternResult TxReport × Store :=
  let kw := kw_from_string attr
  let res := assert_datom store entid kw value
  (externResult_from_result res.1, res.2)

/-- `store_set_long_for_attribute_on_entid` (`lib.rs` lines 627-633). -/
def store_set_long_for_attribute_on_entid (assert_datom : AssertDatom)
    (store : Store) (entid : Entid) (attr : String) (value : Int) :
    ExternResult TxReport × Store :=
  let kw := kw_from_string (c_char_to_string attr)
  let res := assert_datom store entid kw (TypedValue.long value)
  (externResult_from_result res.1, res.2)

/-- `store_set_entid_for_attribute_on_entid` (`lib.rs` lines 635-641). -/
def store_set_entid_for_attribute_on_entid (assert_datom : AssertDatom)
    (store : Store) (entid : Entid) (attr : String) (value : Entid) :
    ExternResult TxReport × Store :=
  let kw := kw_from_string (c_char_to_string attr)
  let res := assert_datom store entid kw (TypedValue.ref value)
  (externResult_from_result res.1, res.2)

/-- `store_set_kw_ref_for_attribute_on_entid` (`lib.rs` lines 643-655):
resolves the value keyword against the current schema; an unresolved
keyword returns early with a null `ok` slot and an `Unknown attribute`
error string, leaving the store untouched; a resolved keyword asserts the
resolved entity id as a `Ref` value and converts the Engine's result. -/
def store_set_kw_ref_for_attribute_on_entid (assert_datom : AssertDatom)
    (store : Store) (entid : Entid) (attr value : String) :
    ExternResult TxReport × Store :=
  let kw := kw_from_string (c_char_to_string attr)
  let value_kw := kw_from_string (c_char_to_string value)
  match store.schema.get_entid value_kw with
  | none =>
    ({ ok := none,
       err := some (string_to_c_char ("Unknown attribute " ++ value_kw.debug_string)) },
     store)
  | some kw_entid =>
    let res := assert_datom store entid kw (TypedValue.ref kw_entid)
    (externResult_from_result res.1, res.2)

/-- `store_set_boolean_for_attribute_on_entid` (`lib.rs` lines 657-661). -/
def store_set_boolean_for_attribute_on_entid (assert_datom : AssertDatom)
    (store : Store) (entid : Entid) (attr : String) (value : Bool) :
    ExternResult TxReport × Store :=
  assert_datom_ffi assert_datom store entid (c_char_to_string attr)
    (TypedValue.boolean value)

/-- `store_set_double_for_attribute_on_entid` (`lib.rs` lines 663-667); the
`f64` argument is carried as its raw bit pattern. -/
def store_set_double_for_attribute_on_entid (assert_datom : AssertDatom)
    (store : Store) (entid : Entid) (attr : String) (value : Nat) :
    ExternResult TxReport × Store :=
  assert_datom_ffi assert_datom store entid (c_char_to_string attr)
    (TypedValue.double value)

/-- `store_set_timestamp_for_attribute_on_entid` (`lib.rs` lines 669-675). -/
def store_set_timestamp_for_attribute_on_entid (assert_datom : AssertDatom)
    (store : Store) (entid : Entid) (attr : String) (value : Int) :
    ExternResult TxReport × Store :=
  let kw := kw_from_string (c_char_to_string attr)
  let res := assert_datom store entid kw (TypedValue.instant value)
  (externResult_from_result res.1, res.2)

/-- `store_set_string_for_attribute_on_entid` (`lib.rs` lines 677-681). -/
def store_set_string_for_attribute_on_entid (assert_datom : AssertDatom)
    (store : Store) (entid : Entid) (attr : String) (value : String) :
    ExternResult TxReport × Store :=
  assert_datom_ffi assert_datom store entid (c_char_to_string attr)
    (TypedValue.text (c_char_to_string value))

/-- `store_set_uuid_for_attribute_on_entid` (`lib.rs` lines 683-688):
parses the UUID first, panicking with `valid uuid` on malformed input
before the store is touched. -/
def store_set_uuid_for_attribute_on_entid (assert_datom : AssertDatom)
    (store : Store) (entid : Entid) (attr : String) (value : String) :
    Except String (ExternResult TxReport × Store) :=
  match Uuid_parse_str (c_char_to_string value) with
  | none => .error "valid uuid"
  | some uuid =>
    .ok (assert_datom_ffi assert_datom store entid (c_char_to_string attr)
      (TypedValue.uuid uuid))

/-- `value_at_index` (`lib.rs` lines 466-470): in-range indices return a
borrowed pointer to the element, out-of-range indices panic with
`No value at index`. The borrowed row is returned unchanged. -/
def value_at_index (values : List TypedValue) (index : Nat) :
    Except String TypedValue × List TypedValue :=
  match values[index]? with
  | some v => (.ok v, values)
  | none => (.error "No value at index", values)

/-- `value_at_index_as_long` (`lib.rs` lines 472-478): out-of-range panics;
otherwise the element is cloned and coerced, and a tag mismatch panics. -/
def value_at_index_as_long (values : List TypedValue) (index : Nat) :
    Except String Int × List TypedValue :=
  match values[index]? with
  | none => (.error "No value at index", values)
  | some value =>
    match value.into_long with
    | some v => (.ok v, values)
    | none => (.error "Typed value cannot be coerced into a Long", values)

/-- `value_at_index_as_entid` (`lib.rs` lines 480-485). -/
def value_at_index_as_entid (values : List TypedValue) (index : Nat) :
    Except String Entid × List TypedValue :=
  match values[index]? with
  | none => (.error "No value at index", values)
  | some value =>
    match value.into_entid with
    | some v => (.ok v, values)
    | none => (.error "Typed value cannot be coerced into an Entid", values)

/-- `value_at_index_as_kw` (`lib.rs` lines 487-493): the cloned element is
coerced to a keyword and rendered to an owned C string. -/
def value_at_index_as_kw (values : List TypedValue) (index : Nat) :
    Except String (List Char) × List TypedValue :=
  match values[index]? with
  | none => (.error "No value at index", values)
  | some value =>
    match value.into_kw with
    | some kw => (.ok (string_to_c_char kw.to_string), values)
    | none =>
      (.error "Typed value cannot be coerced into a Namespaced Keyword", values)

/-- `value_at_index_as_boolean` (`lib.rs` lines 495-501). -/
def value_at_index_as_boolean (values : List TypedValue) (index : Nat) :
    Except String Bool × List TypedValue :=
  match values[index]? with
  | none => (.error "No value at index", values)
  | some value =>
    match value.into_boolean with
    | some v => (.ok v, values)
    | none => (.error "Typed value cannot be coerced into a Boolean", values)

/-- `value_at_index_as_double` (`lib.rs` lines 503-509); the returned `f64`
is carried as its raw bit pattern. -/
def value_at_index_as_double (values : List TypedValue) (index : Nat) :
    Except String Nat × List TypedValue :=
  match values[index]? with
  | none => (.error "No value at index", values)
  | some value =>
    match value.into_double with
    | some v => (.ok v, values)
    | none => (.error "Typed value cannot be coerced into a Double", values)

/-- `value_at_index_as_timestamp` (`lib.rs` lines 511-517). -/
def value_at_index_as_timestamp (values : List TypedValue) (index : Nat) :
    Except String Int × List TypedValue :=
  match values[index]? with
  | none => (.error "No value at index", values)
  | some value =>
    match value.into_timestamp with
    | some v => (.ok v, values)
    | none => (.error "Typed value cannot be coerced into a timestamp", values)

/-- `value_at_index_as_string` (`lib.rs` lines 519-525). -/
def value_at_index_as_string (values : List TypedValue) (index : Nat) :
    Except String (List Char) × List TypedValue :=
  match values[index]? with
  | none => (.error "No value at index", values)
  | some value =>
    match value.into_string with
    | some s => (.ok (c_char_from_rc s), values)
    | none => (.error "Typed value cannot be coerced into a String", values)

/-- `value_at_index_as_uuid` (`lib.rs` lines 527-533). -/
def value_at_index_as_uuid (values : List TypedValue) (index : Nat) :
    Except String (List Char) × List TypedValue :=
  match values[index]? with
  | none => (.error "No value at index", values)
  | some value =>
    match value.into_uuid_string with
    | some s => (.ok (string_to_c_char s), values)
    | none => (.error "Typed value cannot be coerced into a Uuid", values)

/-- `row_at_index` (`lib.rs` lines 381-385): an in-range index boxes a
clone of the row into a non-null pointer; an out-of-range index returns
the null pointer as a normal value (`map_or`, no panic path). The borrowed
row set is returned unchanged. -/
def row_at_index (rows : List (List TypedValue)) (index : Nat) :
    Option (List TypedValue) × List (List TypedValue) :=
  ((rows[index]?).map (fun v => v), rows)

/-- The state of Rust's `vec::IntoIter`: the elements not yet yielded, in
order. `TypedValueIterator` and `TypedValueListIterator` of `lib.rs`
(lines 63-64) are its two instantiations. -/
structure VecIntoIter (α : Type) where
  remaining : List α
deriving DecidableEq

/-- `TypedValueIterator` (`lib.rs` line 63). -/
abbrev TypedValueIterator := VecIntoIter TypedValue

/-- `TypedValueListIterator` (`lib.rs` line 64). -/
abbrev TypedValueListIterator := VecIntoIter (List TypedValue)

/-- `Iterator::next` on `vec::IntoIter` (external std): yields the head and
advances, or yields `none` on an exhausted iterator, leaving it
unchanged. -/
def VecIntoIter.next {α : Type} (iter : VecIntoIter α) :
    Option α × VecIntoIter α :=
  match iter.remaining with
  | [] => (none, ⟨[]⟩)
  | v :: rest => (some v, ⟨rest⟩)

/-- The iterator state after `k` calls of `next`. -/
def VecIntoIter.advance {α : Type} (iter : VecIntoIter α) : Nat → VecIntoIter α
  | 0 => iter
  | k + 1 => VecIntoIter.advance iter.next.2 k

/-- `rows_iter` (`lib.rs` lines 387-391): consumes the boxed row set into
an iterator. -/
def rows_iter (rows : List (List TypedValue)) : TypedValueListIterator :=
  ⟨rows⟩

/-- `rows_iter_next` (`lib.rs` lines 393-397): the next row is boxed into a
non-null pointer, exhaustion returns the null pointer. -/
def rows_iter_next (iter : TypedValueListIterator) :
    Option (List TypedValue) × TypedValueListIterator :=
  iter.next

/-- `values_iter` (`lib.rs` lines 399-403). -/
def values_iter (values : List TypedValue) : TypedValueIterator :=
  ⟨values⟩

/-- `values_iter_next` (`lib.rs` lines 405-409): the next value is boxed
into a non-null pointer, exhaustion returns the null pointer. -/
def values_iter_next (iter : TypedValueIterator) :
    Option TypedValue × TypedValueIterator :=
  iter.next

/-- `values_iter_next_as_long` (`lib.rs` lines 411-416): exhaustion returns
the null pointer before any coercion; otherwise the yielded value is
coerced, panicking on a tag mismatch. -/
def values_iter_next_as_long (iter : TypedValueIterator) :
    Except String (Option Int) × TypedValueIterator :=
  match iter.remaining with
  | [] => (.ok none, ⟨[]⟩)
  | v :: rest =>
    match v.into_long with
    | some n => (.ok (some n), ⟨rest⟩)
    | none => (.error "Typed value cannot be coerced into a Long", ⟨rest⟩)

/-- `values_iter_next_as_entid` (`lib.rs` lines 417-422). -/
def values_iter_next_as_entid (iter : TypedValueIterator) :
    Except String (Option Entid) × TypedValueIterator :=
  match iter.remaining with
  | [] => (.ok none, ⟨[]⟩)
  | v :: rest =>
    match v.into_entid with
    | some n => (.ok (some n), ⟨rest⟩)
    | none => (.error "Typed value cannot be coerced into am Entid", ⟨rest⟩)

/-- `values_iter_next_as_kw` (`lib.rs` lines 424-429). -/
def values_iter_next_as_kw (iter : TypedValueIterator) :
    Except String (Option (List Char)) × TypedValueIterator :=
  match iter.remaining with
  | [] => (.ok none, ⟨[]⟩)
  | v :: rest =>
    match v.into_kw with
    | some kw => (.ok (some (string_to_c_char kw.to_string)), ⟨rest⟩)
    | none =>
      (.error "Typed value cannot be coerced into a Namespaced Keyword", ⟨rest⟩)

/-- `values_iter_next_as_boolean` (`lib.rs` lines 431-436). -/
def values_iter_next_as_boolean (iter : TypedValueIterator) :
    Except String (Option Bool) × TypedValueIterator :=
  match iter.remaining with
  | [] => (.ok none, ⟨[]⟩)
  | v :: rest =>
    match v.into_boolean with
    | some b => (.ok (some b), ⟨rest⟩)
    | none => (.error "Typed value cannot be coerced into a Boolean", ⟨rest⟩)

/-- `values_iter_next_as_double` (`lib.rs` lines 438-443). -/
def values_iter_next_as_double (iter : TypedValueIterator) :
    Except String (Option Nat) × TypedValueIterator :=
  match iter.remaining with
  | [] => (.ok none, ⟨[]⟩)
  | v :: rest =>
    match v.into_double with
    | some d => (.ok (some d), ⟨rest⟩)
    | none => (.error "Typed value cannot be coerced into a Double", ⟨rest⟩)

/-- `values_iter_next_as_timestamp` (`lib.rs` lines 445-450). -/
def values_iter_next_as_timestamp (iter : TypedValueIterator) :
    Except String (Option Int) × TypedValueIterator :=
  match iter.remaining with
  | [] => (.ok none, ⟨[]⟩)
  | v :: rest =>
    match v.into_timestamp with
    | some t => (.ok (some t), ⟨rest⟩)
    | none => (.error "Typed value cannot be coerced into a Timestamp", ⟨rest⟩)

/-- `values_iter_next_as_string` (`lib.rs` lines 452-457). -/
def values_iter_next_as_string (iter : TypedValueIterator) :
    Except String (Option (List Char)) × TypedValueIterator :=
  match iter.remaining with
  | [] => (.ok none, ⟨[]⟩)
  | v :: rest =>
    match v.into_string with
    | some s => (.ok (some (c_char_from_rc s)), ⟨rest⟩)
    | none => (.error "Typed value cannot be coerced into a String", ⟨rest⟩)

/-- `values_iter_next_as_uuid` (`lib.rs` lines 459-464). -/
def values_iter_next_as_uuid (iter : TypedValueIterator) :
    Except String (Option (List Char)) × TypedValueIterator :=
  match iter.remaining with
  | [] => (.ok none, ⟨[]⟩)
  | v :: rest =>
    match v.into_uuid_string with
    | some s => (.ok (some (string_to_c_char s)), ⟨rest⟩)
    | none => (.error "Typed value cannot be coerced into a Uuid", ⟨rest⟩)

/-- The `TransactionChange` struct of `lib.rs` (lines 73-79): a transaction
id, the recorded length of the change slice, and the changed entity ids. -/
structure TransactionChange where
  txid : Entid
  changes_len : Nat
  changes : List Entid
deriving DecidableEq

/-- The `TxChangeList` struct of `lib.rs` (lines 81-86): the per-transaction
change records and the recorded length of that slice. -/
structure TxChangeList where
  reports : List TransactionChange
  len : Nat
deriving DecidableEq

/-- The list built inside the observer closure of `store_register_observer`
(`lib.rs` lines 558-572): each `(transaction id, changed entity ids)` pair
of the Engine's batch becomes a `TransactionChange` whose `changes_len` is
computed from the copied changes, and the outer `len` is the length of the
assembled report vector. -/
def tx_observer_report_list (batch : List (Entid × List Entid)) : TxChangeList :=
  let extern_reports := batch.map (fun p =>
    let changes := p.2
    let len := changes.length
    ({ txid := p.1, changes := changes, changes_len := len } : TransactionChange))
  let len := extern_reports.length
  { reports := extern_reports, len := len }

/-- The foreign-callback invocations performed by the observer closure for
one delivered batch (`lib.rs` line 573): the closure is straight-line code
that calls the callback exactly once, passing the owned C string of the
subscription key and the assembled change list. -/
def tx_observer_invocations (obs_key : String)
    (batch : List (Entid × List Entid)) : List (List Char × TxChangeList) :=
  [(string_to_c_char obs_key, tx_observer_report_list batch)]

/-- Heap model for the destructor protocol: the live allocations of one
pointee type, keyed by address. -/
abbrev Heap (α : Type) := List (Nat × α)

/-- Reclaiming one allocation: `Box::from_raw` followed by the box going
out of scope frees the allocation at that address. -/
def box_from_raw_and_drop {α : Type} (heap : Heap α) (addr : Nat) : Heap α :=
  heap.filter (fun p => decide (p.1 ≠ addr))

/-- The generic `destroy` (`lib.rs` lines 690-695): a null pointer is left
alone, a non-null pointer has its allocation reclaimed. -/
def destroy {α : Type} (heap : Heap α) (obj : Option Nat) : Heap α :=
  match obj with
  | none => heap
  | some addr => box_from_raw_and_drop heap addr

/-- `query_builder_destroy` (`lib.rs` line 705), one expansion of
`define_destructor!` (lines 697-704). -/
def query_builder_destroy (heap : Heap QueryBuilder) (obj : Option Nat) :
    Heap QueryBuilder :=
  match obj with
  | none => heap
  | some addr => box_from_raw_and_drop heap addr

/-- `store_destroy` (`lib.rs` line 707). -/
def store_destroy (heap : Heap Store) (obj : Option Nat) : Heap Store :=
  match obj with
  | none => heap
  | some addr => box_from_raw_and_drop heap addr

/-- `tx_report_destroy` (`lib.rs` line 709). -/
def tx_report_destroy (heap : Heap TxReport) (obj : Option Nat) : Heap TxReport :=
  match obj with
  | none => heap
  | some addr => box_from_raw_and_drop heap addr

/-- `typed_value_destroy` (`lib.rs` line 711). -/
def typed_value_destroy (heap : Heap TypedValue) (obj : Option Nat) :
    Heap TypedValue :=
  match obj with
  | none => heap
  | some addr => box_from_raw_and_drop heap addr

/-- `typed_value_list_destroy` (`lib.rs` line 713). -/
def typed_value_list_destroy (heap : Heap (List TypedValue)) (obj : Option Nat) :
    Heap (List TypedValue) :=
  match obj with
  | none => heap
  | some addr => box_from_raw_and_drop heap addr

/-- `typed_value_list_iter_destroy` (`lib.rs` line 715). -/
def typed_value_list_iter_destroy (heap : Heap TypedValueIterator)
    (obj : Option Nat) : Heap TypedValueIterator :=
  match obj with
  | none => heap
  | some addr => box_from_raw_and_drop heap addr

/-- `typed_value_result_set_destroy` (`lib.rs` line 717). -/
def typed_value_result_set_destroy (heap : Heap (List (List TypedValue)))
    (obj : Option Nat) : Heap (List (List TypedValue)) :=
  match obj with
  | none => heap
  | some addr => box_from_raw_and_drop heap addr

/-- `typed_value_result_set_iter_destroy` (`lib.rs` line 719). -/
def typed_value_result_set_iter_destroy (heap : Heap TypedValueListIterator)
    (obj : Option Nat) : Heap TypedValueListIterator :=
  match obj with
  | none => heap
  | some addr => box_from_raw_and_drop heap addr

/-! Helper lemmas shared by the claim theorems below. -/

/-- Advancing a fresh iterator over a list k times leaves exactly the
dropped suffix. -/
theorem VecIntoIter.advance_mk_drop {α : Type} (l : List α) (k : Nat) :
    VecIntoIter.advance (⟨l⟩ : VecIntoIter α) k = ⟨l.drop k⟩ := by
  induction k generalizing l with
  | zero => simp [VecIntoIter.advance]
  | succ k ih =>
    cases l with
    | nil => simpa [VecIntoIter.advance, VecIntoIter.next] using ih []
    | cons v rest => simpa [VecIntoIter.advance, VecIntoIter.next] using ih rest

/-- In-range next on a dropped suffix yields the indexed element. -/
theorem VecIntoIter.next_drop_of_lt {α : Type} (l : List α) (k : Nat)
    (h : k < l.length) :
    VecIntoIter.next (⟨l.drop k⟩ : VecIntoIter α) =
      (some (l.get ⟨k, h⟩), ⟨l.drop (k + 1)⟩) := by
  induction l generalizing k with
  | nil => simp at h
  | cons v rest ih =>
    cases k with
    | zero => simp [VecIntoIter.next]
    | succ k => simpa [VecIntoIter.next] using ih k (by simpa using h)

/-- Out-of-range next on a dropped suffix is the exhausted case. -/
theorem VecIntoIter.next_drop_of_le {α : Type} (l : List α) (k : Nat)
    (h : l.length ≤ k) :
    VecIntoIter.next (⟨l.drop k⟩ : VecIntoIter α) = (none, ⟨[]⟩) := by
  rw [List.drop_eq_nil_of_le h]
  rfl

/-- The second component of value_at_index is the borrowed row. -/
theorem value_at_index_snd (values : List TypedValue) (i : Nat) :
    (value_at_index values i).2 = values := by
  rcases hv : values[i]? with _ | v <;> simp [value_at_index, hv]

/-- The second component of value_at_index_as_long is the borrowed row. -/
theorem value_at_index_as_long_snd (values : List TypedValue) (i : Nat) :
    (value_at_index_as_long values i).2 = values := by
  rcases hv : values[i]? with _ | v
  · simp [value_at_index_as_long, hv]
  · rcases hl : v.into_long with _ | n <;> simp [value_at_index_as_long, hv, hl]

/-- The second component of value_at_index_as_entid is the borrowed row. -/
theorem value_at_index_as_entid_snd (values : List TypedValue) (i : Nat) :
    (value_at_index_as_entid values i).2 = values := by
  rcases hv : values[i]? with _ | v
  · simp [value_at_index_as_entid, hv]
  · rcases hl : v.into_entid with _ | n <;> simp [value_at_index_as_entid, hv, hl]

/-- The second component of value_at_index_as_kw is the borrowed row. -/
theorem value_at_index_as_kw_snd (values : List TypedValue) (i : Nat) :
    (value_at_index_as_kw values i).2 = values := by
  rcases hv : values[i]? with _ | v
  · simp [value_at_index_as_kw, hv]
  · rcases hl : v.into_kw with _ | n <;> simp [value_at_index_as_kw, hv, hl]

/-- The second component of value_at_index_as_boolean is the borrowed row. -/
theorem value_at_index_as_boolean_snd (values : List TypedValue) (i : Nat) :
    (value_at_index_as_boolean values i).2 = values := by
  rcases hv : values[i]? with _ | v
  · simp [value_at_index_as_boolean, hv]
  · rcases hl : v.into_boolean with _ | n <;>
      simp [value_at_index_as_boolean, hv, hl]

/-- The second component of value_at_index_as_double is the borrowed row. -/
theorem value_at_index_as_double_snd (values : List TypedValue) (i : Nat) :
    (value_at_index_as_double values i).2 = values := by
  rcases hv : values[i]? with _ | v
  · simp [value_at_index_as_double, hv]
  · rcases hl : v.into_double with _ | n <;>
      simp [value_at_index_as_double, hv, hl]

/-- The second component of value_at_index_as_timestamp is the borrowed
row. -/
theorem value_at_index_as_timestamp_snd (values : List TypedValue) (i : Nat) :
    (value_at_index_as_timestamp values i).2 = values := by
  rcases hv : values[i]? with _ | v
  · simp [value_at_index_as_timestamp, hv]
  · rcases hl : v.into_timestamp with _ | n <;>
      simp [value_at_index_as_timestamp, hv, hl]

/-- The second component of value_at_index_as_string is the borrowed row. -/
theorem value_at_index_as_string_snd (values : List TypedValue) (i : Nat) :
    (value_at_index_as_string values i).2 = values := by
  rcases hv : values[i]? with _ | v
  · simp [value_at_index_as_string, hv]
  · rcases hl : v.into_string with _ | n <;>
      simp [value_at_index_as_string, hv, hl]

/-- The second component of value_at_index_as_uuid is the borrowed row. -/
theorem value_at_index_as_uuid_snd (values : List TypedValue) (i : Nat) :
    (value_at_index_as_uuid values i).2 = values := by
  rcases hv : values[i]? with _ | v
  · simp [value_at_index_as_uuid, hv]
  · rcases hl : v.into_uuid_string with _ | n <;>
      simp [value_at_index_as_uuid, hv, hl]

/-- After bind_value, looking the same variable up yields the new value. -/
theorem QueryBuilder.lookup_bind_value (qb : QueryBuilder) (var : String)
    (v : TypedValue) :
    (qb.bind_value var v).lookup_binding var = some v := by
  unfold QueryBuilder.bind_value QueryBuilder.lookup_binding
  rw [List.find?_cons_of_pos _ (by simp)]
  rfl

/-! The claim theorems. -/

/-- Claim C1: every Engine operation converted into a Result Envelope
(store_transact, query_builder_execute_coll, query_builder_execute,
store_sync, the store_set_* writers) produces, for Ok(payload), a non-null
ok slot boxing the payload and a null err slot, and, for Err(e), a null ok
slot and a non-null err slot holding the owned, null-terminated string
built from the error description; exactly one of the two slots is
non-null. The first conjunct states the rule for the generic conversion,
and the remaining conjuncts show every listed operation produces its
envelope through that rule, applied to the outcome of its Engine calls. -/
theorem result_envelope_construction :
    (∀ (α : Type) (r : Except EngineError α) (v : α) (e : EngineError),
      (r = .ok v → externResult_from_result r = { ok := some v, err := none }) ∧
      (r = .error e → externResult_from_result r =
        { ok := none, err := some (string_to_c_char e.description) }) ∧
      (((externResult_from_result r).ok = none) ↔
        ¬ ((externResult_from_result r).err = none))) ∧
    (∀ (IP : Type) (bt : Except EngineError IP)
      (tr : IP → String → Except EngineError TxReport)
      (cm : IP → Except EngineError Unit) (tx : String),
      store_transact bt tr cm tx =
        externResult_from_result (store_transact_result bt tr cm tx)) ∧
    (∀ r : Except EngineError (List TypedValue),
      query_builder_execute_coll r = externResult_from_result r) ∧
    (∀ r : Except EngineError (List (List TypedValue)),
      query_builder_execute r = externResult_from_result r) ∧
    (∀ (σ : Type) (sync : String → String → Except EngineError σ) (u s : String),
      store_sync sync u s = externResult_from_result (sync s u)) ∧
    (∀ (ad : AssertDatom) (st : Store) (en : Entid) (a : String) (v : Int),
      (store_set_long_for_attribute_on_entid ad st en a v).1 =
        externResult_from_result (ad st en (kw_from_string a) (TypedValue.long v)).1) ∧
    (∀ (ad : AssertDatom) (st : Store) (en : Entid) (a : String) (v : Entid),
      (store_set_entid_for_attribute_on_entid ad st en a v).1 =
        externResult_from_result (ad st en (kw_from_string a) (TypedValue.ref v)).1) ∧
    (∀ (ad : AssertDatom) (st : Store) (en : Entid) (a : String) (v : Bool),
      (store_set_boolean_for_attribute_on_entid ad st en a v).1 =
        externResult_from_result (ad st en (kw_from_string a) (TypedValue.boolean v)).1) ∧
    (∀ (ad : AssertDatom) (st : Store) (en : Entid) (a : String) (v : Nat),
      (store_set_double_for_attribute_on_entid ad st en a v).1 =
        externResult_from_result (ad st en (kw_from_string a) (TypedValue.double v)).1) ∧
    (∀ (ad : AssertDatom) (st : Store) (en : Entid) (a : String) (v : Int),
      (store_set_timestamp_for_attribute_on_entid ad st en a v).1 =
        externResult_from_result (ad st en (kw_from_string a) (TypedValue.instant v)).1) ∧
    (∀ (ad : AssertDatom) (st : Store) (en : Entid) (a v : String),
      (store_set_string_for_attribute_on_entid ad st en a v).1 =
        externResult_from_result (ad st en (kw_from_string a) (TypedValue.text v)).1) ∧
    (∀ (ad : AssertDatom) (st : Store) (en : Entid) (a s : String) (u : Nat),
      Uuid_parse_str s = some u →
      store_set_uuid_for_attribute_on_entid ad st en a s =
        .ok (externResult_from_result (ad st en (kw_from_string a) (TypedValue.uuid u)).1,
          (ad st en (kw_from_string a) (TypedValue.uuid u)).2)) := by
  refine ⟨?_, fun _ _ _ _ _ => rfl, fun _ => rfl, fun _ => rfl,
    fun _ _ _ _ => rfl, fun _ _ _ _ _ => rfl, fun _ _ _ _ _ => rfl,
    fun _ _ _ _ _ => rfl, fun _ _ _ _ _ => rfl, fun _ _ _ _ _ => rfl,
    fun _ _ _ _ _ => rfl, ?_⟩
  · intro α r v e
    refine ⟨fun h => by rw [h]; rfl, fun h => by rw [h]; rfl, ?_⟩
    cases r <;> simp [externResult_from_result]
  · intro ad st en a s u h
    simp [store_set_uuid_for_attribute_on_entid, c_char_to_string, h,
      assert_datom_ffi]

/-- Witness for claim C1: the rule evaluated at a concrete success, a
concrete failure, and a concrete UUID writer call. -/
theorem result_envelope_construction_witness :
    externResult_from_result (Except.ok (7 : Int)) =
      { ok := some (7 : Int), err := none } ∧
    externResult_from_result (Except.error (α := Int) ⟨"boom"⟩) =
      ({ ok := none, err := some (string_to_c_char "boom") } : ExternResult Int) ∧
    store_set_uuid_for_attribute_on_entid
        (fun st _ _ _ => (.ok ⟨1, 2, []⟩, st)) ⟨⟨[]⟩, []⟩ 5 "a"
        "00000000-0000-0000-0000-000000000000" =
      .ok ({ ok := some ⟨1, 2, []⟩, err := none }, ⟨⟨[]⟩, []⟩) := by
  obtain ⟨hgen, -, -, -, -, -, -, -, -, -, -, huuid⟩ := result_envelope_construction
  exact ⟨(hgen Int (.ok 7) 7 ⟨"boom"⟩).1 rfl,
    (hgen Int (.error ⟨"boom"⟩) 7 ⟨"boom"⟩).2.1 rfl,
    huuid (fun st _ _ _ => (.ok ⟨1, 2, []⟩, st)) ⟨⟨[]⟩, []⟩ 5 "a"
      "00000000-0000-0000-0000-000000000000" 0 rfl⟩

/-- Claim C2: query_builder_execute_scalar encodes three mutually
exclusive outcomes: Ok(None) gives null ok and null err, Ok(Some(v)) gives
a non-null ok boxing v with null err, Err(e) gives null ok and a non-null
err message string; and on no input are both slots non-null. -/
theorem execute_scalar_three_outcomes (v : TypedValue) (e : EngineError) :
    query_builder_execute_scalar (.ok none) = { ok := none, err := none } ∧
    query_builder_execute_scalar (.ok (some v)) = { ok := some v, err := none } ∧
    query_builder_execute_scalar (.error e) =
      { ok := none, err := some (string_to_c_char e.description) } ∧
    (∀ r : Except EngineError (Option TypedValue),
      (query_builder_execute_scalar r).ok = none ∨
        (query_builder_execute_scalar r).err = none) := by
  refine ⟨rfl, rfl, rfl, ?_⟩
  rintro (_ | _ | _) <;> simp [query_builder_execute_scalar]

/-- Claim C3 counterexample: row_at_index, called on an empty row set with
index 0 (an index greater than or equal to the length), returns the null
pointer as a normal value instead of failing fatally: the source uses
map_or, which has no panic path. -/
theorem row_at_index_out_of_range_returns_null :
    row_at_index [] 0 = (none, []) := rfl

/-- Claim C3 (amended): value_at_index and the value_at_index_as_* family
fail fatally (panic with No value at index) when the index is greater than
or equal to the collection length; row_at_index instead returns the null
pointer as a normal value. -/
theorem indexed_access_out_of_range_behaviour
    (values : List TypedValue) (rows : List (List TypedValue)) (i j : Nat)
    (hv : values.length ≤ i) (hr : rows.length ≤ j) :
    (value_at_index values i).1 = .error "No value at index" ∧
    (value_at_index_as_long values i).1 = .error "No value at index" ∧
    (value_at_index_as_entid values i).1 = .error "No value at index" ∧
    (value_at_index_as_kw values i).1 = .error "No value at index" ∧
    (value_at_index_as_boolean values i).1 = .error "No value at index" ∧
    (value_at_index_as_double values i).1 = .error "No value at index" ∧
    (value_at_index_as_timestamp values i).1 = .error "No value at index" ∧
    (value_at_index_as_string values i).1 = .error "No value at index" ∧
    (value_at_index_as_uuid values i).1 = .error "No value at index" ∧
    (row_at_index rows j).1 = none := by
  have h1 : values[i]? = none := List.getElem?_eq_none hv
  have h2 : rows[j]? = none := List.getElem?_eq_none hr
  refine ⟨?_, ?_, ?_, ?_, ?_, ?_, ?_, ?_, ?_, ?_⟩ <;>
    simp [value_at_index, value_at_index_as_long, value_at_index_as_entid,
      value_at_index_as_kw, value_at_index_as_boolean,
      value_at_index_as_double, value_at_index_as_timestamp,
      value_at_index_as_string, value_at_index_as_uuid, row_at_index, h1, h2]

/-- Witness for claim C3 (amended): the out-of-range behaviour evaluated on
the empty row and row set at index 0. -/
theorem indexed_access_out_of_range_behaviour_witness :
    (value_at_index [] 0).1 = .error "No value at index" ∧
    (value_at_index_as_long [] 0).1 = .error "No value at index" ∧
    (value_at_index_as_entid [] 0).1 = .error "No value at index" ∧
    (value_at_index_as_kw [] 0).1 = .error "No value at index" ∧
    (value_at_index_as_boolean [] 0).1 = .error "No value at index" ∧
    (value_at_index_as_double [] 0).1 = .error "No value at index" ∧
    (value_at_index_as_timestamp [] 0).1 = .error "No value at index" ∧
    (value_at_index_as_string [] 0).1 = .error "No value at index" ∧
    (value_at_index_as_uuid [] 0).1 = .error "No value at index" ∧
    (row_at_index ([] : List (List TypedValue)) 1).1 = none :=
  indexed_access_out_of_range_behaviour [] [] 0 1 (Nat.zero_le 0) (Nat.zero_le 1)

/-- Claim C4: the indexed non-consuming accessors are idempotent: for an
in-range index, each value_at_index_as_* accessor leaves the borrowed row
unchanged (the element is cloned on read), and a second call on the row it
hands back returns the same result, so the row stays usable afterward. -/
theorem value_at_index_accessors_idempotent
    (values : List TypedValue) (i : Nat) (_h : i < values.length) :
    ((value_at_index_as_long values i).2 = values ∧
      value_at_index_as_long (value_at_index_as_long values i).2 i =
        value_at_index_as_long values i) ∧
    ((value_at_index_as_entid values i).2 = values ∧
      value_at_index_as_entid (value_at_index_as_entid values i).2 i =
        value_at_index_as_entid values i) ∧
    ((value_at_index_as_kw values i).2 = values ∧
      value_at_index_as_kw (value_at_index_as_kw values i).2 i =
        value_at_index_as_kw values i) ∧
    ((value_at_index_as_boolean values i).2 = values ∧
      value_at_index_as_boolean (value_at_index_as_boolean values i).2 i =
        value_at_index_as_boolean values i) ∧
    ((value_at_index_as_double values i).2 = values ∧
      value_at_index_as_double (value_at_index_as_double values i).2 i =
        value_at_index_as_double values i) ∧
    ((value_at_index_as_timestamp values i).2 = values ∧
      value_at_index_as_timestamp (value_at_index_as_timestamp values i).2 i =
        value_at_index_as_timestamp values i) ∧
    ((value_at_index_as_string values i).2 = values ∧
      value_at_index_as_string (value_at_index_as_string values i).2 i =
        value_at_index_as_string values i) ∧
    ((value_at_index_as_uuid values i).2 = values ∧
      value_at_index_as_uuid (value_at_index_as_uuid values i).2 i =
        value_at_index_as_uuid values i) :=
  ⟨⟨value_at_index_as_long_snd values i,
    by rw [value_at_index_as_long_snd]⟩,
   ⟨value_at_index_as_entid_snd values i,
    by rw [value_at_index_as_entid_snd]⟩,
   ⟨value_at_index_as_kw_snd values i,
    by rw [value_at_index_as_kw_snd]⟩,
   ⟨value_at_index_as_boolean_snd values i,
    by rw [value_at_index_as_boolean_snd]⟩,
   ⟨value_at_index_as_double_snd values i,
    by rw [value_at_index_as_double_snd]⟩,
   ⟨value_at_index_as_timestamp_snd values i,
    by rw [value_at_index_as_timestamp_snd]⟩,
   ⟨value_at_index_as_string_snd values i,
    by rw [value_at_index_as_string_snd]⟩,
   ⟨value_at_index_as_uuid_snd values i,
    by rw [value_at_index_as_uuid_snd]⟩⟩

/-- Witness for claim C4: idempotence evaluated on a one-element row at
index 0. -/
theorem value_at_index_accessors_idempotent_witness :
    ((value_at_index_as_long [TypedValue.long 7] 0).2 = [TypedValue.long 7] ∧
      value_at_index_as_long (value_at_index_as_long [TypedValue.long 7] 0).2 0 =
        value_at_index_as_long [TypedValue.long 7] 0) ∧
    (value_at_index_as_long [TypedValue.long 7] 0).1 = .ok 7 :=
  ⟨(value_at_index_accessors_idempotent [TypedValue.long 7] 0 (by decide)).1, rfl⟩

/-- Claim C5: every destructor kind, generic destroy and the eight typed
destructors, is a safe no-op on the null pointer: the call returns and the
heap of live allocations is left exactly as it was, so nothing is freed. -/
theorem destructors_null_noop :
    ∀ (α : Type) (h : Heap α) (hq : Heap QueryBuilder) (hs : Heap Store)
      (ht : Heap TxReport) (hv : Heap TypedValue) (hl : Heap (List TypedValue))
      (hvi : Heap TypedValueIterator) (hr : Heap (List (List TypedValue)))
      (hri : Heap TypedValueListIterator),
      destroy h none = h ∧
      query_builder_destroy hq none = hq ∧
      store_destroy hs none = hs ∧
      tx_report_destroy ht none = ht ∧
      typed_value_destroy hv none = hv ∧
      typed_value_list_destroy hl none = hl ∧
      typed_value_list_iter_destroy hvi none = hvi ∧
      typed_value_result_set_destroy hr none = hr ∧
      typed_value_result_set_iter_destroy hri none = hri :=
  fun _ _ _ _ _ _ _ _ _ _ =>
    ⟨rfl, rfl, rfl, rfl, rfl, rfl, rfl, rfl, rfl⟩

/-- Claim C6: tx_report_entity_for_temp_id returns a non-null boxed handle
to the resolved entity id when the temporary-id key is present in the
report map, returns the null marker when the key is absent, and never
consumes or modifies the report. -/
theorem temp_id_lookup_behaviour (r : TxReport) (key : String) :
    (∀ e : Entid, tempids_get r.tempids key = some e →
      tx_report_entity_for_temp_id r key = (some e, r)) ∧
    (tempids_get r.tempids key = none →
      tx_report_entity_for_temp_id r key = (none, r)) ∧
    (tx_report_entity_for_temp_id r key).2 = r := by
  refine ⟨?_, ?_, ?_⟩
  · intro e he
    simp [tx_report_entity_for_temp_id, c_char_to_string, he]
  · intro he
    simp [tx_report_entity_for_temp_id, c_char_to_string, he]
  · rcases hm : tempids_get r.tempids key with _ | e <;>
      simp [tx_report_entity_for_temp_id, c_char_to_string, hm]

/-- Witness for claim C6: a report resolving the key a to 42; looking up a
hits, looking up b misses, the report is untouched in both cases. -/
theorem temp_id_lookup_behaviour_witness :
    tx_report_entity_for_temp_id ⟨10, 20, [("a", 42)]⟩ "a" =
      (some 42, ⟨10, 20, [("a", 42)]⟩) ∧
    tx_report_entity_for_temp_id ⟨10, 20, [("a", 42)]⟩ "b" =
      (none, ⟨10, 20, [("a", 42)]⟩) :=
  ⟨(temp_id_lookup_behaviour ⟨10, 20, [("a", 42)]⟩ "a").1 42 rfl,
   (temp_id_lookup_behaviour ⟨10, 20, [("a", 42)]⟩ "b").2.1 rfl⟩

/-- Claim C7: the keyword-reference writer returns a Result whose err slot
carries an Unknown attribute message and whose ok slot is null whenever
the value keyword does not resolve in the current schema, asserting
nothing (the store is returned unchanged); when resolution succeeds, the
resolved entity id is asserted as a Ref value and the converted Engine
result together with the updated store is returned. -/
theorem kw_ref_writer_behaviour (ad : AssertDatom) (store : Store)
    (entid : Entid) (attr value : String) :
    (store.schema.get_entid (kw_from_string value) = none →
      store_set_kw_ref_for_attribute_on_entid ad store entid attr value =
        ({ ok := none,
           err := some (string_to_c_char
             ("Unknown attribute " ++ (kw_from_string value).debug_string)) },
         store)) ∧
    (∀ kw_entid : Entid,
      store.schema.get_entid (kw_from_string value) = some kw_entid →
      store_set_kw_ref_for_attribute_on_entid ad store entid attr value =
        (externResult_from_result
          (ad store entid (kw_from_string attr) (TypedValue.ref kw_entid)).1,
         (ad store entid (kw_from_string attr) (TypedValue.ref kw_entid)).2)) := by
  constructor
  · intro h
    simp [store_set_kw_ref_for_attribute_on_entid, c_char_to_string, h]
  · intro kw_entid h
    simp [store_set_kw_ref_for_attribute_on_entid, c_char_to_string, h]

/-- Witness for claim C7: a schema knowing only the keyword known, a
concrete Engine assert, and both a failing and a succeeding call. -/
theorem kw_ref_writer_behaviour_witness :
    store_set_kw_ref_for_attribute_on_entid
        (fun st _ _ _ => (.ok ⟨1, 2, []⟩, st))
        ⟨⟨[(⟨"known"⟩, 99)]⟩, []⟩ 5 "attr" "missing" =
      ({ ok := none,
         err := some (string_to_c_char "Unknown attribute missing") },
       ⟨⟨[(⟨"known"⟩, 99)]⟩, []⟩) ∧
    store_set_kw_ref_for_attribute_on_entid
        (fun st _ _ _ => (.ok ⟨1, 2, []⟩, st))
        ⟨⟨[(⟨"known"⟩, 99)]⟩, []⟩ 5 "attr" "known" =
      ({ ok := some ⟨1, 2, []⟩, err := none }, ⟨⟨[(⟨"known"⟩, 99)]⟩, []⟩) :=
  ⟨(kw_ref_writer_behaviour (fun st _ _ _ => (.ok ⟨1, 2, []⟩, st))
      ⟨⟨[(⟨"known"⟩, 99)]⟩, []⟩ 5 "attr" "missing").1 rfl,
   (kw_ref_writer_behaviour (fun st _ _ _ => (.ok ⟨1, 2, []⟩, st))
      ⟨⟨[(⟨"known"⟩, 99)]⟩, []⟩ 5 "attr" "known").2 99 rfl⟩

/-- Claim C8: for values_iter_next and rows_iter_next, the call after k
prior calls returns a non-null boxed handle to the k-th element of the
original sequence while in range, and from exhaustion on every further
call returns the null sentinel leaving the iterator state unchanged (so
the handle can still be destroyed); the values_iter_next_as_* family also
returns the null sentinel on an exhausted iterator, before any coercion is
attempted. -/
theorem iterator_next_contract (vs : List TypedValue)
    (rs : List (List TypedValue)) (k : Nat) :
    (∀ h : k < vs.length,
      (values_iter_next (VecIntoIter.advance (values_iter vs) k)).1 =
        some (vs.get ⟨k, h⟩)) ∧
    (vs.length ≤ k →
      values_iter_next (VecIntoIter.advance (values_iter vs) k) = (none, ⟨[]⟩)) ∧
    (∀ h : k < rs.length,
      (rows_iter_next (VecIntoIter.advance (rows_iter rs) k)).1 =
        some (rs.get ⟨k, h⟩)) ∧
    (rs.length ≤ k →
      rows_iter_next (VecIntoIter.advance (rows_iter rs) k) = (none, ⟨[]⟩)) ∧
    values_iter_next_as_long ⟨[]⟩ = (.ok none, ⟨[]⟩) ∧
    values_iter_next_as_entid ⟨[]⟩ = (.ok none, ⟨[]⟩) ∧
    values_iter_next_as_kw ⟨[]⟩ = (.ok none, ⟨[]⟩) ∧
    values_iter_next_as_boolean ⟨[]⟩ = (.ok none, ⟨[]⟩) ∧
    values_iter_next_as_double ⟨[]⟩ = (.ok none, ⟨[]⟩) ∧
    values_iter_next_as_timestamp ⟨[]⟩ = (.ok none, ⟨[]⟩) ∧
    values_iter_next_as_string ⟨[]⟩ = (.ok none, ⟨[]⟩) ∧
    values_iter_next_as_uuid ⟨[]⟩ = (.ok none, ⟨[]⟩) := by
  refine ⟨?_, ?_, ?_, ?_, rfl, rfl, rfl, rfl, rfl, rfl, rfl, rfl⟩
  · intro h
    rw [values_iter, VecIntoIter.advance_mk_drop, values_iter_next,
      VecIntoIter.next_drop_of_lt vs k h]
  · intro h
    rw [values_iter, VecIntoIter.advance_mk_drop, values_iter_next,
      VecIntoIter.next_drop_of_le vs k h]
  · intro h
    rw [rows_iter, VecIntoIter.advance_mk_drop, rows_iter_next,
      VecIntoIter.next_drop_of_lt rs k h]
  · intro h
    rw [rows_iter, VecIntoIter.advance_mk_drop, rows_iter_next,
      VecIntoIter.next_drop_of_le rs k h]

/-- Witness for claim C8: a one-element value sequence; the first call
yields the element, the second call hits exhaustion and returns the null
sentinel with the iterator state intact. -/
theorem iterator_next_contract_witness :
    (values_iter_next (VecIntoIter.advance (values_iter [TypedValue.long 3]) 0)).1 =
      some (TypedValue.long 3) ∧
    values_iter_next (VecIntoIter.advance (values_iter [TypedValue.long 3]) 1) =
      (none, ⟨[]⟩) ∧
    (rows_iter_next (VecIntoIter.advance (rows_iter [[TypedValue.long 4]]) 0)).1 =
      some [TypedValue.long 4] ∧
    rows_iter_next (VecIntoIter.advance (rows_iter [[TypedValue.long 4]]) 1) =
      (none, ⟨[]⟩) :=
  ⟨(iterator_next_contract [TypedValue.long 3] [[TypedValue.long 4]] 0).1
      (by decide),
   (iterator_next_contract [TypedValue.long 3] [[TypedValue.long 4]] 1).2.1
      (by decide),
   (iterator_next_contract [TypedValue.long 3] [[TypedValue.long 4]] 0).2.2.1
      (by decide),
   (iterator_next_contract [TypedValue.long 3] [[TypedValue.long 4]] 1).2.2.2.1
      (by decide)⟩

/-- Claim C9: query_builder_bind_uuid parses the string as a canonical
UUID; on success it binds the parsed value to the variable (the returned
builder maps the variable to that UUID value), and on every malformed
string it fails fatally with the valid uuid panic, returning no builder
and binding nothing. -/
theorem bind_uuid_contract (qb : QueryBuilder) (var s : String) :
    (∀ u : Nat, Uuid_parse_str s = some u →
      query_builder_bind_uuid qb var s =
        .ok (qb.bind_value var (TypedValue.uuid u)) ∧
      ∀ qb' : QueryBuilder, query_builder_bind_uuid qb var s = .ok qb' →
        qb'.lookup_binding var = some (TypedValue.uuid u)) ∧
    (Uuid_parse_str s = none →
      query_builder_bind_uuid qb var s = .error "valid uuid") := by
  constructor
  · intro u hu
    have hok : query_builder_bind_uuid qb var s =
        .ok (qb.bind_value var (TypedValue.uuid u)) := by
      simp [query_builder_bind_uuid, c_char_to_string, hu]
    refine ⟨hok, ?_⟩
    intro qb' h'
    rw [hok] at h'
    cases h'
    exact QueryBuilder.lookup_bind_value qb var (TypedValue.uuid u)
  · intro hu
    simp [query_builder_bind_uuid, c_char_to_string, hu]

/-- Witness for claim C9: binding the nil UUID succeeds and records the
binding; binding the malformed string zz panics with valid uuid. -/
theorem bind_uuid_contract_witness :
    query_builder_bind_uuid ⟨"q", []⟩ "x"
        "00000000-0000-0000-0000-000000000000" =
      .ok (QueryBuilder.bind_value ⟨"q", []⟩ "x" (TypedValue.uuid 0)) ∧
    (QueryBuilder.bind_value ⟨"q", []⟩ "x" (TypedValue.uuid 0)).lookup_binding "x" =
      some (TypedValue.uuid 0) ∧
    query_builder_bind_uuid ⟨"q", []⟩ "x" "zz" = .error "valid uuid" := by
  obtain ⟨hsome, -⟩ := bind_uuid_contract ⟨"q", []⟩ "x"
    "00000000-0000-0000-0000-000000000000"
  obtain ⟨hok, hlook⟩ := hsome 0 rfl
  exact ⟨hok, hlook _ hok,
    (bind_uuid_contract ⟨"q", []⟩ "x" "zz").2 rfl⟩

/-- Claim C10: the TxChangeList assembled by the observer bridge for a
delivered batch has its len field equal to the number of entries in its
reports slice; the entries mirror the batch in order, with matching
transaction ids, matching entity-id lists, and each changes_len equal to
the length of its changes; and the foreign callback is invoked exactly
once per batch, with the subscription key string and exactly this list. -/
theorem tx_change_list_invariants (key : String)
    (batch : List (Entid × List Entid)) :
    (tx_observer_report_list batch).len =
      (tx_observer_report_list batch).reports.length ∧
    (tx_observer_report_list batch).reports.length = batch.length ∧
    (∀ i : Nat, (tx_observer_report_list batch).reports[i]? =
      (batch[i]?).map (fun p =>
        { txid := p.1, changes_len := p.2.length, changes := p.2 })) ∧
    ((tx_observer_report_list batch).reports.all
      (fun c => decide (c.changes_len = c.changes.length)) = true) ∧
    tx_observer_invocations key batch =
      [(string_to_c_char key, tx_observer_report_list batch)] ∧
    (tx_observer_invocations key batch).length = 1 := by
  refine ⟨rfl, by simp [tx_observer_report_list], ?_, ?_, rfl, rfl⟩
  · intro i
    simp [tx_observer_report_list, List.getElem?_map]
  · simp only [tx_observer_report_list, List.all_eq_true, List.mem_map]
    rintro c ⟨p, -, rfl⟩
    simp
